import Mathlib

/-!
Verification of the AI-influencer front-end (src/unnamed/part_000 and
src/services/geminiService.ts) against its natural-language specification.

The TypeScript source is shallowly embedded: the React component state
(the useState hooks of App) becomes the structure SessionState, each
async handler becomes a pure function from the pre-call state and the
provider outcome to the post-call state (the provider outcome stands for
the resolution of the awaited generateImages call), and each
geminiService function becomes a function from its options and the
provider outcome to an Except String String mirroring its
resolve/reject behaviour.
-/

namespace InfluencerApp

/-- Aspect ratios, src/unnamed/part_000 line 9. -/
inductive AspectRatio where
  | r1x1
  | r4x3
  | r3x4
  | r16x9
  | r9x16
deriving DecidableEq, Repr

/-- Application mode, src/unnamed/part_000 line 10. -/
inductive AppMode where
  | generate
  | edit
deriving DecidableEq, Repr

/-- Editing tab, src/unnamed/part_000 line 11. -/
inductive EditModeTab where
  | inpaint
  | newScene
  | addText
deriving DecidableEq, Repr

/-- One image of a provider response (response.generatedImages[i].image). -/
structure GeneratedImage where
  imageBytes : String
deriving DecidableEq, Repr

/-- The provider response body used by geminiService. -/
structure GenerateImagesResponse where
  generatedImages : List GeneratedImage
deriving DecidableEq, Repr

/-- A JavaScript exception: either an Error object carrying a message, or
any other thrown value (the `instanceof Error` test distinguishes them). -/
inductive JsError where
  | errObj (message : String)
  | nonError
deriving DecidableEq, Repr

/-- Resolution of one awaited ai.models.generateImages call: either a
response object, or a thrown exception (network/provider error). -/
inductive ProviderOutcome where
  | ok (resp : GenerateImagesResponse)
  | threw (e : JsError)
deriving DecidableEq, Repr

/-- Options of generateInfluencerImage, geminiService.ts lines 13-20. -/
structure GenerateImageOptions where
  prompt : String
  aspectRatio : AspectRatio
  style : String
  age : String
  dominantColor : String
  ethnicity : String
deriving DecidableEq, Repr

/-- Options of inpaintImage, geminiService.ts lines 65-69. -/
structure InpaintImageOptions where
  prompt : String
  image : String
  mask : String
deriving DecidableEq, Repr

/-- Options of generateConsistentCharacter, geminiService.ts lines 104-108. -/
structure GenerateConsistentCharacterOptions where
  prompt : String
  image : String
  aspectRatio : AspectRatio
deriving DecidableEq, Repr

/-- Options of addTextToImage, geminiService.ts lines 146-150. -/
structure AddTextToImageOptions where
  prompt : String
  image : String
  language : String
deriving DecidableEq, Repr

/-- The fullPrompt built by generateInfluencerImage, geminiService.ts
lines 27-36.  JavaScript `if (age)` / `if (dominantColor)` treat exactly
the empty string as falsy for these string fields, hence the `= ""`
tests. -/
def composeInfluencerPrompt (o : GenerateImageOptions) : String :=
  let p := "Create a " ++ o.style ++ ", ultra-realistic, full-body portrait of a " ++ o.ethnicity ++ " AI influencer."
  let p := p ++ " The style should be high-resolution, resembling a professional photograph."
  let p := p ++ " Key details: " ++ o.prompt ++ "."
  let p := if o.age = "" then p else p ++ " The influencer should appear to be around " ++ o.age ++ " years old."
  let p := if o.dominantColor = "" then p else p ++ " The image's color palette should be dominated by shades of " ++ o.dominantColor ++ "."
  p ++ " Focus on realistic skin textures, intricate details, natural lighting, and a compelling pose."

/-- The fullPrompt built by generateConsistentCharacter, geminiService.ts
line 115. -/
def composeConsistentCharacterPrompt (prompt : String) : String :=
  "Using the provided image as a reference for the character's face and appearance, create a new scene. The character must remain consistent. New scene description: \"" ++ prompt ++ "\""

/-- The fullPrompt built by addTextToImage, geminiService.ts lines 157-159. -/
def composeAddTextPrompt (prompt language : String) : String :=
  "Seamlessly and realistically integrate the following text onto the image, matching the existing art style, lighting, perspective, and textures. The text should appear as a natural part of the scene, not just an overlay.\nText to add: \"" ++ prompt ++ "\"\nThe text is in " ++ language ++ " language."

/-- generateInfluencerImage, geminiService.ts lines 23-62.  A thrown
Error is re-wrapped by the catch block; the in-try throw for an empty
generatedImages list is caught by the same catch and wrapped too. -/
def generateInfluencerImage (o : GenerateImageOptions) (po : ProviderOutcome) : Except String String :=
  match po with
  | .ok resp =>
    match resp.generatedImages with
    | [] => .error ("Failed to generate influencer image: " ++ "Image generation failed, no images were returned.")
    | img :: _ => .ok ("data:image/jpeg;base64," ++ img.imageBytes)
  | .threw (.errObj msg) => .error ("Failed to generate influencer image: " ++ msg)
  | .threw .nonError => .error "An unknown error occurred during image generation."

/-- inpaintImage, geminiService.ts lines 72-101. -/
def inpaintImage (o : InpaintImageOptions) (po : ProviderOutcome) : Except String String :=
  match po with
  | .ok resp =>
    match resp.generatedImages with
    | [] => .error ("Failed to inpaint image: " ++ "Inpainting failed, no images were returned.")
    | img :: _ => .ok ("data:image/jpeg;base64," ++ img.imageBytes)
  | .threw (.errObj msg) => .error ("Failed to inpaint image: " ++ msg)
  | .threw .nonError => .error "An unknown error occurred during image inpainting."

/-- generateConsistentCharacter, geminiService.ts lines 111-143. -/
def generateConsistentCharacter (o : GenerateConsistentCharacterOptions) (po : ProviderOutcome) : Except String String :=
  match po with
  | .ok resp =>
    match resp.generatedImages with
    | [] => .error ("Failed to generate consistent character: " ++ "Consistent character generation failed, no images were returned.")
    | img :: _ => .ok ("data:image/jpeg;base64," ++ img.imageBytes)
  | .threw (.errObj msg) => .error ("Failed to generate consistent character: " ++ msg)
  | .threw .nonError => .error "An unknown error occurred during consistent character generation."

/-- addTextToImage, geminiService.ts lines 153-185. -/
def addTextToImage (o : AddTextToImageOptions) (po : ProviderOutcome) : Except String String :=
  match po with
  | .ok resp =>
    match resp.generatedImages with
    | [] => .error ("Failed to add text to image: " ++ "Adding text failed, no images were returned.")
    | img :: _ => .ok ("data:image/jpeg;base64," ++ img.imageBytes)
  | .threw (.errObj msg) => .error ("Failed to add text to image: " ++ msg)
  | .threw .nonError => .error "An unknown error occurred while adding text to the image."

/-- The mask canvas raster.  width/height are the canvas pixel
dimensions; drawn is the painted content, abstracted as the list of
stroked line segments; lastPoint is the current path position set by
moveTo/lineTo. -/
structure MaskCanvas where
  width : Nat
  height : Nat
  drawn : List ((Int × Int) × (Int × Int))
  lastPoint : Option (Int × Int)
deriving DecidableEq, Repr

/-- clearCanvas, src/unnamed/part_000 lines 108-114:
context.clearRect(0, 0, canvas.width, canvas.height) erases every
painted pixel of the raster and touches neither the canvas dimensions
nor the current path. -/
def clearCanvas (m : MaskCanvas) : MaskCanvas :=
  { m with drawn := [] }

/-- Models canvas.toDataURL with type image/png (src line 146): a PNG data URL
of the raster.  The byte encoding after the comma is abstracted as a
textual rendering of the drawn segments; no behaviour of the app depends
on these bytes. -/
def maskToDataUrl (m : MaskCanvas) : String :=
  "data:image/png;base64," ++ toString m.drawn

/-- Drops everything up to and including the first comma; none when the
list has no comma. -/
def dropThroughComma : List Char → Option (List Char)
  | [] => none
  | c :: r => if c = ',' then some r else dropThroughComma r

/-- Takes characters up to (excluding) the next comma. -/
def upToComma : List Char → List Char
  | [] => []
  | c :: r => if c = ',' then [] else c :: upToComma r

/-- getBase64FromDataUrl, src/unnamed/part_000 line 22:
dataUrl.split at commas, element 1, i.e. the text between the first comma and the
second comma or end of string.  JavaScript yields undefined when the
string has no comma; that case (never reached: every data URL here
contains a comma) is modelled as "". -/
def getBase64FromDataUrl (d : String) : String :=
  match dropThroughComma d.data with
  | some r => String.mk (upToComma r)
  | none => ""

/-- The React component state of App: one field per useState hook,
src/unnamed/part_000 lines 26-46.  mask models the inpaint canvas
raster reachable through canvasRef/contextRef; none when no canvas is
mounted (the canvas element is rendered only in edit mode on the
inpaint tab). -/
structure SessionState where
  mode : AppMode
  isLoading : Bool
  error : Option String
  imageUrl : Option String
  prompt : String
  aspectRatio : AspectRatio
  style : String
  age : String
  dominantColor : String
  ethnicity : String
  editModeTab : EditModeTab
  inpaintPrompt : String
  newScenePrompt : String
  textContent : String
  textLanguage : String
  brushSize : Nat
  isDrawing : Bool
  mask : Option MaskCanvas
deriving DecidableEq, Repr

/-- The initial state: the useState defaults, src lines 26-46. -/
def initState : SessionState :=
  { mode := .generate
    isLoading := false
    error := none
    imageUrl := none
    prompt := "A stylish female influencer with vibrant pink hair, standing in a futuristic neon-lit city square at night."
    aspectRatio := .r1x1
    style := "Photorealistic"
    age := "25"
    dominantColor := "Neon Pink"
    ethnicity := "Caucasian"
    editModeTab := .inpaint
    inpaintPrompt := ""
    newScenePrompt := ""
    textContent := ""
    textLanguage := "English"
    brushSize := 40
    isDrawing := false
    mask := none }

/-- The GenerateImageOptions that handleGenerate passes, src lines 121-128. -/
def optionsOf (s : SessionState) : GenerateImageOptions :=
  { prompt := s.prompt
    aspectRatio := s.aspectRatio
    style := s.style
    age := s.age
    dominantColor := s.dominantColor
    ethnicity := s.ethnicity }

/-- handleGenerate, src lines 117-137, viewed at completion of the async
call: setIsLoading(true) and setError(null) precede the await; on
resolution setImageUrl(resultUrl) and setMode(edit); on rejection
setError(message); the finally block runs setIsLoading(false) on both
paths.  The thrown value is always an Error built by geminiService, so
the `e instanceof Error` test takes its message. -/
def handleGenerate (s : SessionState) (po : ProviderOutcome) : SessionState :=
  match generateInfluencerImage (optionsOf s) po with
  | .ok url => { s with isLoading := false, error := none, imageUrl := some url, mode := .edit }
  | .error msg => { s with isLoading := false, error := some msg }

/-- handleApplyInpaint, src lines 139-165: early return when imageUrl or
canvasRef.current is null; on success setImageUrl(resultUrl),
clearCanvas(), setInpaintPrompt(empty). -/
def handleApplyInpaint (s : SessionState) (po : ProviderOutcome) : SessionState :=
  match s.imageUrl, s.mask with
  | some url, some m =>
    match inpaintImage
        { prompt := s.inpaintPrompt
          image := getBase64FromDataUrl url
          mask := getBase64FromDataUrl (maskToDataUrl m) } po with
    | .ok r => { s with isLoading := false, error := none, imageUrl := some r,
                        mask := some (clearCanvas m), inpaintPrompt := "" }
    | .error msg => { s with isLoading := false, error := some msg }
  | _, _ => s

/-- handleGenerateNewScene, src lines 167-187: early return when
imageUrl is null; on success setImageUrl(resultUrl), setNewScenePrompt(empty). -/
def handleGenerateNewScene (s : SessionState) (po : ProviderOutcome) : SessionState :=
  match s.imageUrl with
  | some url =>
    match generateConsistentCharacter
        { prompt := s.newScenePrompt
          image := getBase64FromDataUrl url
          aspectRatio := s.aspectRatio } po with
    | .ok r => { s with isLoading := false, error := none, imageUrl := some r,
                        newScenePrompt := "" }
    | .error msg => { s with isLoading := false, error := some msg }
  | none => s

/-- handleApplyText, src lines 189-209: early return when imageUrl is
null or textContent is the empty string (falsy); on success
setImageUrl(resultUrl), setTextContent(empty). -/
def handleApplyText (s : SessionState) (po : ProviderOutcome) : SessionState :=
  match s.imageUrl with
  | some url =>
    if s.textContent = "" then s
    else
      match addTextToImage
          { prompt := s.textContent
            image := getBase64FromDataUrl url
            language := s.textLanguage } po with
      | .ok r => { s with isLoading := false, error := none, imageUrl := some r,
                          textContent := "" }
      | .error msg => { s with isLoading := false, error := some msg }
  | none => s

/-- handleStartOver, src lines 223-233. -/
def handleStartOver (s : SessionState) : SessionState :=
  { s with mode := .generate
           imageUrl := none
           error := none
           isLoading := false
           inpaintPrompt := ""
           newScenePrompt := ""
           textContent := ""
           textLanguage := "English"
           editModeTab := .inpaint }

/-- setCanvasDimensions inside the useEffect, src lines 54-84: run in
edit mode whenever mode, brushSize or imageUrl changes; assigning
canvas.width and canvas.height (the rendered image size w x h) resets
the canvas raster to fully transparent per the HTML canvas element
semantics. -/
def setCanvasDimensions (s : SessionState) (w h : Nat) : SessionState :=
  if s.mode = .edit then
    match s.mask with
    | some m => { s with mask := some { m with width := w, height := h, drawn := [] } }
    | none => s
  else s

/-- startDrawing, src lines 87-93: beginPath/moveTo on the context, then
setIsDrawing(true); early return when contextRef.current is null. -/
def startDrawing (s : SessionState) (x y : Int) : SessionState :=
  match s.mask with
  | some m => { s with mask := some { m with lastPoint := some (x, y) }, isDrawing := true }
  | none => s

/-- draw, src lines 101-106: while isDrawing, lineTo/stroke paints a
segment from the current path position to the pointer position. -/
def draw (s : SessionState) (x y : Int) : SessionState :=
  if s.isDrawing then
    match s.mask with
    | some m =>
      match m.lastPoint with
      | some p => { s with mask := some { m with drawn := (p, (x, y)) :: m.drawn,
                                                 lastPoint := some (x, y) } }
      | none => s
    | none => s
  else s

/-- stopDrawing, src lines 95-99: closePath, setIsDrawing(false); early
return when contextRef.current is null. -/
def stopDrawing (s : SessionState) : SessionState :=
  match s.mask with
  | some _ => { s with isDrawing := false }
  | none => s

/-- clearCanvas at the session level (the Clear Mask button, src line
382): no-op when no canvas is mounted. -/
def clearCanvasState (s : SessionState) : SessionState :=
  match s.mask with
  | some m => { s with mask := some (clearCanvas m) }
  | none => s

/-- The user/browser events the rendered UI can deliver to App.  Each
remote-operation event carries the resolution of the awaited provider
call. -/
inductive AppEvent where
  | evGenerate (po : ProviderOutcome)
  | evApplyInpaint (po : ProviderOutcome)
  | evGenerateNewScene (po : ProviderOutcome)
  | evApplyText (po : ProviderOutcome)
  | evStartOver
  | evSetPrompt (v : String)
  | evSetAspectRatio (v : AspectRatio)
  | evSetStyle (v : String)
  | evSetAge (v : String)
  | evSetDominantColor (v : String)
  | evSetEthnicity (v : String)
  | evSetEditModeTab (t : EditModeTab)
  | evSetInpaintPrompt (v : String)
  | evSetNewScenePrompt (v : String)
  | evSetTextContent (v : String)
  | evSetTextLanguage (v : String)
  | evSetBrushSize (v : Nat)
  | evClearCanvas
  | evStartDrawing (x y : Int)
  | evDraw (x y : Int)
  | evStopDrawing
  | evCanvasInit (w h : Nat)
  | evCanvasResize (w h : Nat)
deriving Repr

/-- One UI event step.  evSetEditModeTab is guarded on edit mode because
the tab buttons (src lines 346-348) are rendered only inside
EditingControls, which App renders only when mode === edit (src line
490); no other guard is needed for the properties proved below, so the
remaining events are available in every state (a superset of what the
rendered UI offers).  evCanvasInit models the inpaint canvas mounting
(rendered only in edit mode on the inpaint tab, src line 327) followed
by the sizing effect; evCanvasResize models a window resize re-running
setCanvasDimensions. -/
def uiStep (e : AppEvent) (s : SessionState) : SessionState :=
  match e with
  | .evGenerate po => handleGenerate s po
  | .evApplyInpaint po => handleApplyInpaint s po
  | .evGenerateNewScene po => handleGenerateNewScene s po
  | .evApplyText po => handleApplyText s po
  | .evStartOver => handleStartOver s
  | .evSetPrompt v => { s with prompt := v }
  | .evSetAspectRatio v => { s with aspectRatio := v }
  | .evSetStyle v => { s with style := v }
  | .evSetAge v => { s with age := v }
  | .evSetDominantColor v => { s with dominantColor := v }
  | .evSetEthnicity v => { s with ethnicity := v }
  | .evSetEditModeTab t => if s.mode = .edit then { s with editModeTab := t } else s
  | .evSetInpaintPrompt v => { s with inpaintPrompt := v }
  | .evSetNewScenePrompt v => { s with newScenePrompt := v }
  | .evSetTextContent v => { s with textContent := v }
  | .evSetTextLanguage v => { s with textLanguage := v }
  | .evSetBrushSize v => { s with brushSize := v }
  | .evClearCanvas => clearCanvasState s
  | .evStartDrawing x y => startDrawing s x y
  | .evDraw x y => draw s x y
  | .evStopDrawing => stopDrawing s
  | .evCanvasInit w h =>
    if s.mode = .edit ∧ s.editModeTab = .inpaint then
      { s with mask := some { width := w, height := h, drawn := [], lastPoint := none } }
    else s
  | .evCanvasResize w h => setCanvasDimensions s w h

/-- The session states reachable from the initial state by UI events. -/
inductive Reachable : SessionState → Prop where
  | init : Reachable initState
  | step (s : SessionState) (e : AppEvent) : Reachable s → Reachable (uiStep e s)

/-- handleGenerate never changes the edit tab. -/
lemma handleGenerate_editModeTab (s : SessionState) (po : ProviderOutcome) :
    (handleGenerate s po).editModeTab = s.editModeTab := by
  unfold handleGenerate
  split <;> rfl

/-- handleGenerate moves the mode only towards edit. -/
lemma handleGenerate_mode (s : SessionState) (po : ProviderOutcome)
    (h : (handleGenerate s po).mode = AppMode.generate) : s.mode = AppMode.generate := by
  unfold handleGenerate at h
  split at h
  · exact absurd h (by simp)
  · exact h

/-- handleApplyInpaint changes neither mode nor tab. -/
lemma handleApplyInpaint_mode_tab (s : SessionState) (po : ProviderOutcome) :
    (handleApplyInpaint s po).mode = s.mode ∧
    (handleApplyInpaint s po).editModeTab = s.editModeTab := by
  unfold handleApplyInpaint
  split
  · split <;> exact ⟨rfl, rfl⟩
  · exact ⟨rfl, rfl⟩

/-- handleGenerateNewScene changes neither mode nor tab. -/
lemma handleGenerateNewScene_mode_tab (s : SessionState) (po : ProviderOutcome) :
    (handleGenerateNewScene s po).mode = s.mode ∧
    (handleGenerateNewScene s po).editModeTab = s.editModeTab := by
  unfold handleGenerateNewScene
  split
  · split <;> exact ⟨rfl, rfl⟩
  · exact ⟨rfl, rfl⟩

/-- handleApplyText changes neither mode nor tab. -/
lemma handleApplyText_mode_tab (s : SessionState) (po : ProviderOutcome) :
    (handleApplyText s po).mode = s.mode ∧
    (handleApplyText s po).editModeTab = s.editModeTab := by
  unfold handleApplyText
  split
  · split
    · exact ⟨rfl, rfl⟩
    · split <;> exact ⟨rfl, rfl⟩
  · exact ⟨rfl, rfl⟩

/-- Inductive invariant: in generate (Creating) mode the edit tab is
always the default inpaint tab — the tab can be changed only from edit
mode, startOver resets it, and a successful generate leaves it as it
was. -/
lemma reachable_generate_tab {s : SessionState} (hr : Reachable s) :
    s.mode = AppMode.generate → s.editModeTab = EditModeTab.inpaint := by
  induction hr with
  | init => intro _; rfl
  | step s e _ ih =>
    cases e with
    | evGenerate po =>
      intro hm
      rw [uiStep, handleGenerate_editModeTab]
      exact ih (handleGenerate_mode s po hm)
    | evApplyInpaint po =>
      intro hm
      rw [uiStep, (handleApplyInpaint_mode_tab s po).2]
      exact ih ((handleApplyInpaint_mode_tab s po).1 ▸ hm)
    | evGenerateNewScene po =>
      intro hm
      rw [uiStep, (handleGenerateNewScene_mode_tab s po).2]
      exact ih ((handleGenerateNewScene_mode_tab s po).1 ▸ hm)
    | evApplyText po =>
      intro hm
      rw [uiStep, (handleApplyText_mode_tab s po).2]
      exact ih ((handleApplyText_mode_tab s po).1 ▸ hm)
    | evStartOver => intro _; rfl
    | evSetEditModeTab t =>
      intro hm
      rw [uiStep] at hm ⊢
      split at hm <;> simp_all
    | evClearCanvas =>
      intro hm
      rw [uiStep, clearCanvasState] at hm ⊢
      split at hm <;> simp_all
    | evStartDrawing x y =>
      intro hm
      rw [uiStep, startDrawing] at hm ⊢
      split at hm <;> simp_all
    | evDraw x y =>
      intro hm
      rw [uiStep, draw] at hm ⊢
      split at hm <;> (try split at hm) <;> (try split at hm) <;> simp_all
    | evStopDrawing =>
      intro hm
      rw [uiStep, stopDrawing] at hm ⊢
      split at hm <;> simp_all
    | evCanvasInit w h =>
      intro hm
      rw [uiStep] at hm ⊢
      split at hm <;> simp_all
    | evCanvasResize w h =>
      intro hm
      rw [uiStep, setCanvasDimensions] at hm ⊢
      split at hm <;> (try split at hm) <;> simp_all
    | _ =>
      intro hm
      rw [uiStep] at hm ⊢
      exact ih hm

/-- A provider outcome on which every service call fails: a thrown
network/provider error, or a response with zero generated images. -/
def providerFails : ProviderOutcome → Prop
  | .ok resp => resp.generatedImages = []
  | .threw _ => True

/-- A provider outcome on which every service call succeeds. -/
def providerOk : ProviderOutcome → Bool
  | .ok resp => !resp.generatedImages.isEmpty
  | .threw _ => false

/-- Appending to a non-empty string yields a non-empty string. -/
lemma append_ne_empty_left {a : String} (b : String) (h : a ≠ "") : a ++ b ≠ "" := by
  intro he
  apply h
  have hd : a.data ++ b.data = [] := by
    have := congrArg String.data he
    simpa [String.data_append] using this
  have : a.data = [] := (List.append_eq_nil.mp hd).1
  cases a
  simp_all

/-- On a failing outcome, generateInfluencerImage rejects with a
non-empty message. -/
lemma generateInfluencerImage_fails (o : GenerateImageOptions) (po : ProviderOutcome)
    (h : providerFails po) :
    ∃ m, generateInfluencerImage o po = .error m ∧ m ≠ "" := by
  cases po with
  | ok resp =>
    have hr : resp.generatedImages = [] := h
    exact ⟨_, by rw [generateInfluencerImage, hr], by decide⟩
  | threw e =>
    cases e with
    | errObj msg =>
      exact ⟨_, rfl, append_ne_empty_left _ (by decide)⟩
    | nonError => exact ⟨_, rfl, by decide⟩

/-- On a failing outcome, inpaintImage rejects with a non-empty message. -/
lemma inpaintImage_fails (o : InpaintImageOptions) (po : ProviderOutcome)
    (h : providerFails po) :
    ∃ m, inpaintImage o po = .error m ∧ m ≠ "" := by
  cases po with
  | ok resp =>
    have hr : resp.generatedImages = [] := h
    exact ⟨_, by rw [inpaintImage, hr], by decide⟩
  | threw e =>
    cases e with
    | errObj msg =>
      exact ⟨_, rfl, append_ne_empty_left _ (by decide)⟩
    | nonError => exact ⟨_, rfl, by decide⟩

/-- On a failing outcome, generateConsistentCharacter rejects with a
non-empty message. -/
lemma generateConsistentCharacter_fails (o : GenerateConsistentCharacterOptions)
    (po : ProviderOutcome) (h : providerFails po) :
    ∃ m, generateConsistentCharacter o po = .error m ∧ m ≠ "" := by
  cases po with
  | ok resp =>
    have hr : resp.generatedImages = [] := h
    exact ⟨_, by rw [generateConsistentCharacter, hr], by decide⟩
  | threw e =>
    cases e with
    | errObj msg =>
      exact ⟨_, rfl, append_ne_empty_left _ (by decide)⟩
    | nonError => exact ⟨_, rfl, by decide⟩

/-- On a failing outcome, addTextToImage rejects with a non-empty message. -/
lemma addTextToImage_fails (o : AddTextToImageOptions) (po : ProviderOutcome)
    (h : providerFails po) :
    ∃ m, addTextToImage o po = .error m ∧ m ≠ "" := by
  cases po with
  | ok resp =>
    have hr : resp.generatedImages = [] := h
    exact ⟨_, by rw [addTextToImage, hr], by decide⟩
  | threw e =>
    cases e with
    | errObj msg =>
      exact ⟨_, rfl, append_ne_empty_left _ (by decide)⟩
    | nonError => exact ⟨_, rfl, by decide⟩

/-- A succeeding outcome is a response whose image list is non-empty. -/
lemma providerOk_iff (po : ProviderOutcome) :
    providerOk po = true ↔ ∃ img rest, po = .ok ⟨img :: rest⟩ := by
  cases po with
  | ok resp =>
    cases resp with
    | mk imgs =>
      cases imgs with
      | nil => simp [providerOk]
      | cons a t => simp [providerOk]
  | threw e => simp [providerOk]

/-- Whether sub is a prefix of the second list (character-wise). -/
def startsWithList : List Char → List Char → Bool
  | [], _ => true
  | _ :: _, [] => false
  | a :: as, b :: bs => a == b && startsWithList as bs

/-- Whether sub occurs contiguously somewhere in the list. -/
def strOccursAux (sub : List Char) : List Char → Bool
  | [] => sub.isEmpty
  | c :: t => startsWithList sub (c :: t) || strOccursAux sub t

/-- Whether sub occurs contiguously in s (substring containment). -/
def containsSub (sub s : String) : Bool :=
  strOccursAux sub.data s.data

lemma startsWithList_append (p r : List Char) : startsWithList p (p ++ r) = true := by
  induction p with
  | nil => rfl
  | cons a as ih => simp [startsWithList, ih]

lemma strOccursAux_append_left (sub pre s : List Char) (h : strOccursAux sub s = true) :
    strOccursAux sub (pre ++ s) = true := by
  induction pre with
  | nil => simpa using h
  | cons b bs ih =>
    rw [List.cons_append, strOccursAux, Bool.or_eq_true]
    exact Or.inr ih

lemma strOccursAux_self_append (p r : List Char) : strOccursAux p (p ++ r) = true := by
  cases p with
  | nil =>
    cases r with
    | nil => rfl
    | cons c t => simp [strOccursAux, startsWithList]
  | cons a as =>
    have h := startsWithList_append (a :: as) r
    rw [List.cons_append] at h ⊢
    rw [strOccursAux, Bool.or_eq_true]
    exact Or.inl h

/-- A string built as l ++ sub ++ r contains sub. -/
lemma containsSub_of_parts (sub l r s : String) (h : s = l ++ sub ++ r) :
    containsSub sub s = true := by
  subst h
  unfold containsSub
  rw [String.data_append, String.data_append, List.append_assoc]
  exact strOccursAux_append_left _ _ _ (strOccursAux_self_append _ _)

/-- The unconditional head of the influencer prompt, geminiService.ts
lines 27-29. -/
def influencerPromptBase (o : GenerateImageOptions) : String :=
  "Create a " ++ o.style ++ ", ultra-realistic, full-body portrait of a " ++ o.ethnicity ++ " AI influencer." ++ " The style should be high-resolution, resembling a professional photograph." ++ " Key details: " ++ o.prompt ++ "."

/-- The age clause, appended only for a non-empty age (lines 30-32). -/
def agePiece (age : String) : String :=
  if age = "" then "" else " The influencer should appear to be around " ++ age ++ " years old."

/-- The dominant-color clause, appended only for a non-empty color
(lines 33-35). -/
def colorPiece (c : String) : String :=
  if c = "" then "" else " The image's color palette should be dominated by shades of " ++ c ++ "."

/-- The fixed closing sentence of the influencer prompt (line 36). -/
def influencerPromptTail : String :=
  " Focus on realistic skin textures, intricate details, natural lighting, and a compelling pose."

/-- The influencer prompt decomposes into the unconditional head, the
two optional clauses (empty exactly when their field is empty) and the
fixed tail. -/
lemma composeInfluencerPrompt_eq (o : GenerateImageOptions) :
    composeInfluencerPrompt o =
      influencerPromptBase o ++ agePiece o.age ++ colorPiece o.dominantColor ++
        influencerPromptTail := by
  simp only [composeInfluencerPrompt, influencerPromptBase, agePiece, colorPiece,
    influencerPromptTail]
  split_ifs <;> simp only [String.append_assoc, String.append_empty, String.empty_append]

/-- The form inputs of the UI: every user-editable control value. -/
structure FormInputs where
  prompt : String
  aspectRatio : AspectRatio
  style : String
  age : String
  dominantColor : String
  ethnicity : String
  inpaintPrompt : String
  newScenePrompt : String
  textContent : String
  textLanguage : String
  brushSize : Nat
deriving DecidableEq, Repr

/-- Projection of a session state onto its form-input fields. -/
def formInputs (s : SessionState) : FormInputs :=
  { prompt := s.prompt
    aspectRatio := s.aspectRatio
    style := s.style
    age := s.age
    dominantColor := s.dominantColor
    ethnicity := s.ethnicity
    inpaintPrompt := s.inpaintPrompt
    newScenePrompt := s.newScenePrompt
    textContent := s.textContent
    textLanguage := s.textLanguage
    brushSize := s.brushSize }

/-- The attributes of the spec scenario for the prompt composer. -/
def scenarioOptions : GenerateImageOptions :=
  { prompt := "D"
    aspectRatio := .r1x1
    style := "Anime"
    age := ""
    dominantColor := ""
    ethnicity := "Asian" }

/-- A sample mask raster with one drawn stroke segment. -/
def sampleMask : MaskCanvas :=
  { width := 4, height := 4, drawn := [((0, 0), (1, 1))], lastPoint := some (1, 1) }

/-- A sample editing-mode state with a current image, a drawn mask and
non-empty transient edit inputs. -/
def editState : SessionState :=
  { initState with
      mode := .edit
      imageUrl := some "data:image/jpeg;base64,QUJD"
      mask := some sampleMask
      inpaintPrompt := "add sunglasses"
      newScenePrompt := "at a beach"
      textContent := "Hello" }

/-- Claim C3: for every PersonaAttributes input, also when any of style,
age, dominantColor, ethnicity is empty, the initial-prompt composition
is the total function composeInfluencerPrompt returning one prompt
string; it decomposes into the unconditional head, the two optional
clauses and the fixed tail, and the clause of an empty optional field
is the empty string, i.e. is simply omitted. -/
theorem composeInfluencerPrompt_total_omits_empty :
    ∀ o : GenerateImageOptions,
      composeInfluencerPrompt o =
        influencerPromptBase o ++ agePiece o.age ++ colorPiece o.dominantColor ++
          influencerPromptTail ∧
      (o.age = "" → agePiece o.age = "") ∧
      (o.dominantColor = "" → colorPiece o.dominantColor = "") := by
  intro o
  refine ⟨composeInfluencerPrompt_eq o, fun h => ?_, fun h => ?_⟩
  · rw [agePiece, if_pos h]
  · rw [colorPiece, if_pos h]

/-- Witness for C3 at the scenario attributes, whose age and
dominantColor are empty. -/
theorem composeInfluencerPrompt_total_omits_empty_witness :
    agePiece scenarioOptions.age = "" ∧ colorPiece scenarioOptions.dominantColor = "" :=
  ⟨(composeInfluencerPrompt_total_omits_empty scenarioOptions).2.1 rfl,
   (composeInfluencerPrompt_total_omits_empty scenarioOptions).2.2 rfl⟩

set_option maxRecDepth 8000 in
/-- Claim C4: the composed initial prompt contains the description,
style and ethnicity texts verbatim; it contains the age clause whenever
age is non-empty and the dominant-color clause whenever dominantColor
is non-empty, and when both are empty the prompt is exactly head ++
tail with no such clause; for the scenario attributes the prompt
contains "Anime", "Asian" and "D" and contains neither clause. -/
theorem composeInfluencerPrompt_contains_fields :
    (∀ o : GenerateImageOptions,
      containsSub o.prompt (composeInfluencerPrompt o) = true ∧
      containsSub o.style (composeInfluencerPrompt o) = true ∧
      containsSub o.ethnicity (composeInfluencerPrompt o) = true ∧
      (o.age ≠ "" →
        containsSub (" The influencer should appear to be around " ++ o.age ++ " years old.")
          (composeInfluencerPrompt o) = true) ∧
      (o.dominantColor ≠ "" →
        containsSub
          (" The image's color palette should be dominated by shades of " ++ o.dominantColor ++ ".")
          (composeInfluencerPrompt o) = true) ∧
      (o.age = "" → o.dominantColor = "" →
        composeInfluencerPrompt o = influencerPromptBase o ++ influencerPromptTail)) ∧
    containsSub "Anime" (composeInfluencerPrompt scenarioOptions) = true ∧
    containsSub "Asian" (composeInfluencerPrompt scenarioOptions) = true ∧
    containsSub "D" (composeInfluencerPrompt scenarioOptions) = true ∧
    containsSub "The influencer should appear to be around"
      (composeInfluencerPrompt scenarioOptions) = false ∧
    containsSub "color palette should be dominated by shades of"
      (composeInfluencerPrompt scenarioOptions) = false := by
  refine ⟨fun o => ⟨?_, ?_, ?_, fun hage => ?_, fun hcol => ?_, fun hage hcol => ?_⟩,
    by decide, by decide, by decide, by decide, by decide⟩
  · refine containsSub_of_parts o.prompt
      ("Create a " ++ o.style ++ ", ultra-realistic, full-body portrait of a " ++ o.ethnicity ++
        " AI influencer." ++ " The style should be high-resolution, resembling a professional photograph." ++ " Key details: ")
      ("." ++ agePiece o.age ++ colorPiece o.dominantColor ++ influencerPromptTail) _ ?_
    rw [composeInfluencerPrompt_eq]
    simp only [influencerPromptBase, String.append_assoc]
  · refine containsSub_of_parts o.style "Create a "
      (", ultra-realistic, full-body portrait of a " ++ o.ethnicity ++
        " AI influencer." ++ " The style should be high-resolution, resembling a professional photograph." ++ " Key details: " ++ o.prompt ++ "." ++
        agePiece o.age ++ colorPiece o.dominantColor ++ influencerPromptTail) _ ?_
    rw [composeInfluencerPrompt_eq]
    simp only [influencerPromptBase, String.append_assoc]
  · refine containsSub_of_parts o.ethnicity
      ("Create a " ++ o.style ++ ", ultra-realistic, full-body portrait of a ")
      (" AI influencer." ++ " The style should be high-resolution, resembling a professional photograph." ++ " Key details: " ++ o.prompt ++ "." ++
        agePiece o.age ++ colorPiece o.dominantColor ++ influencerPromptTail) _ ?_
    rw [composeInfluencerPrompt_eq]
    simp only [influencerPromptBase, String.append_assoc]
  · refine containsSub_of_parts _ (influencerPromptBase o)
      (colorPiece o.dominantColor ++ influencerPromptTail) _ ?_
    rw [composeInfluencerPrompt_eq, agePiece, if_neg hage]
    simp only [String.append_assoc]
  · refine containsSub_of_parts _ (influencerPromptBase o ++ agePiece o.age)
      influencerPromptTail _ ?_
    rw [composeInfluencerPrompt_eq, colorPiece, if_neg hcol]
  · rw [composeInfluencerPrompt_eq, agePiece, if_pos hage, colorPiece, if_pos hcol,
      String.append_empty, String.append_empty]

/-- Witness for C4: the age clause of a non-empty age is contained in
the composed prompt of the initial attribute state. -/
theorem composeInfluencerPrompt_contains_fields_witness :
    containsSub (" The influencer should appear to be around " ++ "25" ++ " years old.")
      (composeInfluencerPrompt (optionsOf initState)) = true :=
  (composeInfluencerPrompt_contains_fields.1 (optionsOf initState)).2.2.2.1 (by decide)

/-- Claim C6: startOver always yields mode Creating, no image, no error
and isLoading false, and it is idempotent. -/
theorem handleStartOver_resets_idempotent :
    ∀ s : SessionState,
      (handleStartOver s).mode = AppMode.generate ∧
      (handleStartOver s).imageUrl = none ∧
      (handleStartOver s).error = none ∧
      (handleStartOver s).isLoading = false ∧
      handleStartOver (handleStartOver s) = handleStartOver s :=
  fun _ => ⟨rfl, rfl, rfl, rfl, rfl⟩

/-- Claim C7: startOver leaves the persona-creation attribute fields
unchanged while discarding the image and resetting every transient edit
input (inpaint prompt, new-scene prompt, text content, text language
back to English, edit tab back to inpaint). -/
theorem handleStartOver_preserves_attributes :
    ∀ s : SessionState,
      (handleStartOver s).prompt = s.prompt ∧
      (handleStartOver s).aspectRatio = s.aspectRatio ∧
      (handleStartOver s).style = s.style ∧
      (handleStartOver s).age = s.age ∧
      (handleStartOver s).dominantColor = s.dominantColor ∧
      (handleStartOver s).ethnicity = s.ethnicity ∧
      (handleStartOver s).imageUrl = none ∧
      (handleStartOver s).inpaintPrompt = "" ∧
      (handleStartOver s).newScenePrompt = "" ∧
      (handleStartOver s).textContent = "" ∧
      (handleStartOver s).textLanguage = "English" ∧
      (handleStartOver s).editModeTab = EditModeTab.inpaint :=
  fun _ => ⟨rfl, rfl, rfl, rfl, rfl, rfl, rfl, rfl, rfl, rfl, rfl, rfl⟩

/-- Claim C9: clearing the mask canvas yields an empty raster of the
same dimensions, whatever was drawn before. -/
theorem clearCanvas_empties_raster :
    ∀ m : MaskCanvas,
      (clearCanvas m).drawn = [] ∧
      (clearCanvas m).width = m.width ∧
      (clearCanvas m).height = m.height :=
  fun _ => ⟨rfl, rfl, rfl⟩

/-- Claim C10: with no current image, applyInpaint, regenerateScene and
addText return the state unchanged whatever the provider would answer
(no request is observable), and addText is likewise a no-op when the
text content is empty. -/
theorem edit_ops_noop_without_image :
    ∀ (s : SessionState) (po : ProviderOutcome),
      (s.imageUrl = none →
        handleApplyInpaint s po = s ∧
        handleGenerateNewScene s po = s ∧
        handleApplyText s po = s) ∧
      (s.textContent = "" → handleApplyText s po = s) := by
  intro s po
  constructor
  · intro h
    refine ⟨?_, ?_, ?_⟩
    · rw [handleApplyInpaint]
      rw [h]
    · rw [handleGenerateNewScene]
      rw [h]
    · rw [handleApplyText]
      rw [h]
  · intro h
    rw [handleApplyText]
    cases hu : s.imageUrl with
    | none => rfl
    | some u => simp [h]

/-- Witness for C10 at the initial state, which has no image. -/
theorem edit_ops_noop_without_image_witness :
    handleApplyInpaint initState (.threw .nonError) = initState ∧
    handleGenerateNewScene initState (.threw .nonError) = initState ∧
    handleApplyText initState (.threw .nonError) = initState :=
  (edit_ops_noop_without_image initState (.threw .nonError)).1 rfl

/-- Re-running the canvas-sizing effect in edit mode leaves an empty
raster in any mounted mask canvas. -/
lemma setCanvasDimensions_mask_empty (s : SessionState) (w h : Nat)
    (hs : s.mode = AppMode.edit) :
    ∀ mc, (setCanvasDimensions s w h).mask = some mc → mc.drawn = [] := by
  intro mc hmc
  rw [setCanvasDimensions, if_pos hs] at hmc
  rcases hm : s.mask with _ | m
  · rw [hm] at hmc
    simp [hm] at hmc
  · rw [hm] at hmc
    simp only [Option.some.injEq] at hmc
    rw [← hmc]

/-- Claim C1: whenever a remote operation actually runs (its guards
pass) and fails — a thrown network/provider error or an empty-result
response, i.e. providerFails — the handler leaves the current image,
the mask and every form input unchanged, ends with isLoading false, and
stores a non-empty error message. -/
theorem failed_operation_preserves_session :
    ∀ (s : SessionState) (po : ProviderOutcome), providerFails po →
      ((handleGenerate s po).imageUrl = s.imageUrl ∧
       formInputs (handleGenerate s po) = formInputs s ∧
       (handleGenerate s po).isLoading = false ∧
       ∃ m, (handleGenerate s po).error = some m ∧ m ≠ "") ∧
      (∀ u mc, s.imageUrl = some u → s.mask = some mc →
       (handleApplyInpaint s po).imageUrl = s.imageUrl ∧
       (handleApplyInpaint s po).mask = s.mask ∧
       formInputs (handleApplyInpaint s po) = formInputs s ∧
       (handleApplyInpaint s po).isLoading = false ∧
       ∃ m, (handleApplyInpaint s po).error = some m ∧ m ≠ "") ∧
      (∀ u, s.imageUrl = some u →
       (handleGenerateNewScene s po).imageUrl = s.imageUrl ∧
       (handleGenerateNewScene s po).mask = s.mask ∧
       formInputs (handleGenerateNewScene s po) = formInputs s ∧
       (handleGenerateNewScene s po).isLoading = false ∧
       ∃ m, (handleGenerateNewScene s po).error = some m ∧ m ≠ "") ∧
      (∀ u, s.imageUrl = some u → s.textContent ≠ "" →
       (handleApplyText s po).imageUrl = s.imageUrl ∧
       (handleApplyText s po).mask = s.mask ∧
       formInputs (handleApplyText s po) = formInputs s ∧
       (handleApplyText s po).isLoading = false ∧
       ∃ m, (handleApplyText s po).error = some m ∧ m ≠ "") := by
  intro s po hfail
  refine ⟨?_, ?_, ?_, ?_⟩
  · obtain ⟨m, hm, hne⟩ := generateInfluencerImage_fails (optionsOf s) po hfail
    have hg : handleGenerate s po = { s with isLoading := false, error := some m } := by
      simp only [handleGenerate, hm]
    rw [hg]
    exact ⟨rfl, rfl, rfl, m, rfl, hne⟩
  · intro u mc hu hmc
    obtain ⟨m, hm, hne⟩ := inpaintImage_fails
      { prompt := s.inpaintPrompt
        image := getBase64FromDataUrl u
        mask := getBase64FromDataUrl (maskToDataUrl mc) } po hfail
    have hg : handleApplyInpaint s po = { s with isLoading := false, error := some m } := by
      simp only [handleApplyInpaint, hu, hmc, hm]
    rw [hg]
    exact ⟨rfl, rfl, rfl, rfl, m, rfl, hne⟩
  · intro u hu
    obtain ⟨m, hm, hne⟩ := generateConsistentCharacter_fails
      { prompt := s.newScenePrompt
        image := getBase64FromDataUrl u
        aspectRatio := s.aspectRatio } po hfail
    have hg : handleGenerateNewScene s po = { s with isLoading := false, error := some m } := by
      simp only [handleGenerateNewScene, hu, hm]
    rw [hg]
    exact ⟨rfl, rfl, rfl, rfl, m, rfl, hne⟩
  · intro u hu htc
    obtain ⟨m, hm, hne⟩ := addTextToImage_fails
      { prompt := s.textContent
        image := getBase64FromDataUrl u
        language := s.textLanguage } po hfail
    have hg : handleApplyText s po = { s with isLoading := false, error := some m } := by
      simp only [handleApplyText, hu]
      rw [if_neg htc]
      simp only [hm]
    rw [hg]
    exact ⟨rfl, rfl, rfl, rfl, m, rfl, hne⟩

/-- Witness for C1: the inpaint operation failing with a thrown network
error in a concrete editing state. -/
theorem failed_operation_preserves_session_witness :
    (handleApplyInpaint editState (.threw (.errObj "network down"))).imageUrl =
      editState.imageUrl ∧
    (handleApplyInpaint editState (.threw (.errObj "network down"))).isLoading = false :=
  have h := (failed_operation_preserves_session editState (.threw (.errObj "network down"))
    trivial).2.1 "data:image/jpeg;base64,QUJD" sampleMask rfl rfl
  ⟨h.1, h.2.2.2.1⟩

/-- Claim C2: a successful inpaint clears the mask raster in the
handler itself; a successful regenerateScene or addText replaces
imageUrl, which re-runs the canvas-sizing effect in edit mode, and the
resulting state has an empty mask raster (or no mounted canvas at all). -/
theorem success_clears_mask :
    ∀ (s : SessionState) (po : ProviderOutcome) (w h : Nat),
      (∀ u mc, s.imageUrl = some u → s.mask = some mc → providerOk po = true →
        (handleApplyInpaint s po).mask = some (clearCanvas mc) ∧
        (clearCanvas mc).drawn = []) ∧
      (s.mode = AppMode.edit → providerOk po = true →
        (∀ mc, (setCanvasDimensions (handleGenerateNewScene s po) w h).mask = some mc →
          mc.drawn = []) ∧
        (∀ mc, (setCanvasDimensions (handleApplyText s po) w h).mask = some mc →
          mc.drawn = [])) := by
  intro s po w h
  constructor
  · intro u mc hu hmc hok
    obtain ⟨img, rest, rfl⟩ := (providerOk_iff po).mp hok
    refine ⟨?_, rfl⟩
    simp only [handleApplyInpaint, hu, hmc, inpaintImage]
  · intro hmode _
    constructor
    · exact setCanvasDimensions_mask_empty _ w h
        (by rw [(handleGenerateNewScene_mode_tab s po).1, hmode])
    · exact setCanvasDimensions_mask_empty _ w h
        (by rw [(handleApplyText_mode_tab s po).1, hmode])

/-- Witness for C2: a successful inpaint in a concrete editing state
with a drawn mask leaves the cleared mask. -/
theorem success_clears_mask_witness :
    (handleApplyInpaint editState (.ok ⟨[⟨"QUJD"⟩]⟩)).mask = some (clearCanvas sampleMask) :=
  ((success_clears_mask editState (.ok ⟨[⟨"QUJD"⟩]⟩) 5 6).1
    "data:image/jpeg;base64,QUJD" sampleMask rfl rfl rfl).1

/-- Claim C5: from every reachable Creating-mode state, a successful
generate stores the first returned image as a data URI, switches the
mode to editing with the inpaint tab active, and ends with isLoading
false. -/
theorem generate_success_enters_editing :
    ∀ (s : SessionState) (po : ProviderOutcome) (img : GeneratedImage)
      (rest : List GeneratedImage),
      Reachable s → s.mode = AppMode.generate → po = .ok ⟨img :: rest⟩ →
      (handleGenerate s po).mode = AppMode.edit ∧
      (handleGenerate s po).editModeTab = EditModeTab.inpaint ∧
      (handleGenerate s po).imageUrl = some ("data:image/jpeg;base64," ++ img.imageBytes) ∧
      (handleGenerate s po).isLoading = false := by
  intro s po img rest hr hm hpo
  subst hpo
  have htab : (handleGenerate s (.ok ⟨img :: rest⟩)).editModeTab = EditModeTab.inpaint := by
    rw [handleGenerate_editModeTab]
    exact reachable_generate_tab hr hm
  have hg : handleGenerate s (.ok ⟨img :: rest⟩) =
      { s with isLoading := false, error := none,
               imageUrl := some ("data:image/jpeg;base64," ++ img.imageBytes),
               mode := .edit } := by
    simp only [handleGenerate, generateInfluencerImage]
  exact ⟨by rw [hg], htab, by rw [hg], by rw [hg]⟩

/-- Witness for C5 at the initial state with a one-image response. -/
theorem generate_success_enters_editing_witness :
    (handleGenerate initState (.ok ⟨[⟨"QUJD"⟩]⟩)).mode = AppMode.edit ∧
    (handleGenerate initState (.ok ⟨[⟨"QUJD"⟩]⟩)).editModeTab = EditModeTab.inpaint ∧
    (handleGenerate initState (.ok ⟨[⟨"QUJD"⟩]⟩)).imageUrl =
      some ("data:image/jpeg;base64," ++ GeneratedImage.imageBytes ⟨"QUJD"⟩) ∧
    (handleGenerate initState (.ok ⟨[⟨"QUJD"⟩]⟩)).isLoading = false :=
  generate_success_enters_editing initState (.ok ⟨[⟨"QUJD"⟩]⟩) ⟨"QUJD"⟩ []
    Reachable.init rfl rfl

/-- Claim C8: each of the four service operations rejects with its
descriptive message on a zero-image response and otherwise resolves to
the first generated image as a JPEG data URI; a zero-image response is
surfaced by the handlers as SessionState.error with the current image
unchanged. -/
theorem empty_response_error_else_first_image :
    ∀ (o1 : GenerateImageOptions) (o2 : InpaintImageOptions)
      (o3 : GenerateConsistentCharacterOptions) (o4 : AddTextToImageOptions)
      (img : GeneratedImage) (rest : List GeneratedImage)
      (s : SessionState) (u : String) (mc : MaskCanvas),
      (generateInfluencerImage o1 (.ok ⟨[]⟩) =
        .error "Failed to generate influencer image: Image generation failed, no images were returned." ∧
       inpaintImage o2 (.ok ⟨[]⟩) =
        .error "Failed to inpaint image: Inpainting failed, no images were returned." ∧
       generateConsistentCharacter o3 (.ok ⟨[]⟩) =
        .error "Failed to generate consistent character: Consistent character generation failed, no images were returned." ∧
       addTextToImage o4 (.ok ⟨[]⟩) =
        .error "Failed to add text to image: Adding text failed, no images were returned.") ∧
      (generateInfluencerImage o1 (.ok ⟨img :: rest⟩) =
        .ok ("data:image/jpeg;base64," ++ img.imageBytes) ∧
       inpaintImage o2 (.ok ⟨img :: rest⟩) =
        .ok ("data:image/jpeg;base64," ++ img.imageBytes) ∧
       generateConsistentCharacter o3 (.ok ⟨img :: rest⟩) =
        .ok ("data:image/jpeg;base64," ++ img.imageBytes) ∧
       addTextToImage o4 (.ok ⟨img :: rest⟩) =
        .ok ("data:image/jpeg;base64," ++ img.imageBytes)) ∧
      ((handleGenerate s (.ok ⟨[]⟩)).error.isSome = true ∧
       (handleGenerate s (.ok ⟨[]⟩)).imageUrl = s.imageUrl) ∧
      (s.imageUrl = some u → s.mask = some mc →
       (handleApplyInpaint s (.ok ⟨[]⟩)).error.isSome = true ∧
       (handleApplyInpaint s (.ok ⟨[]⟩)).imageUrl = s.imageUrl) ∧
      (s.imageUrl = some u →
       (handleGenerateNewScene s (.ok ⟨[]⟩)).error.isSome = true ∧
       (handleGenerateNewScene s (.ok ⟨[]⟩)).imageUrl = s.imageUrl) ∧
      (s.imageUrl = some u → s.textContent ≠ "" →
       (handleApplyText s (.ok ⟨[]⟩)).error.isSome = true ∧
       (handleApplyText s (.ok ⟨[]⟩)).imageUrl = s.imageUrl) := by
  intro o1 o2 o3 o4 img rest s u mc
  have hfail : providerFails (.ok ⟨[]⟩) := rfl
  have e1 : ("Failed to generate influencer image: " ++ "Image generation failed, no images were returned." : String) = "Failed to generate influencer image: Image generation failed, no images were returned." := by decide
  have e2 : ("Failed to inpaint image: " ++ "Inpainting failed, no images were returned." : String) = "Failed to inpaint image: Inpainting failed, no images were returned." := by decide
  have e3 : ("Failed to generate consistent character: " ++ "Consistent character generation failed, no images were returned." : String) = "Failed to generate consistent character: Consistent character generation failed, no images were returned." := by decide
  have e4 : ("Failed to add text to image: " ++ "Adding text failed, no images were returned." : String) = "Failed to add text to image: Adding text failed, no images were returned." := by decide
  refine ⟨⟨by rw [← e1]; rfl, by rw [← e2]; rfl, by rw [← e3]; rfl, by rw [← e4]; rfl⟩,
    ⟨rfl, rfl, rfl, rfl⟩, ?_, ?_, ?_, ?_⟩
  · obtain ⟨m, hm, _⟩ := generateInfluencerImage_fails (optionsOf s) (.ok ⟨[]⟩) hfail
    have hg : handleGenerate s (.ok ⟨[]⟩) = { s with isLoading := false, error := some m } := by
      simp only [handleGenerate, hm]
    rw [hg]
    exact ⟨rfl, rfl⟩
  · intro hu hmc
    obtain ⟨m, hm, _⟩ := inpaintImage_fails
      { prompt := s.inpaintPrompt
        image := getBase64FromDataUrl u
        mask := getBase64FromDataUrl (maskToDataUrl mc) } (.ok ⟨[]⟩) hfail
    have hg : handleApplyInpaint s (.ok ⟨[]⟩) =
        { s with isLoading := false, error := some m } := by
      simp only [handleApplyInpaint, hu, hmc, hm]
    rw [hg]
    exact ⟨rfl, rfl⟩
  · intro hu
    obtain ⟨m, hm, _⟩ := generateConsistentCharacter_fails
      { prompt := s.newScenePrompt
        image := getBase64FromDataUrl u
        aspectRatio := s.aspectRatio } (.ok ⟨[]⟩) hfail
    have hg : handleGenerateNewScene s (.ok ⟨[]⟩) =
        { s with isLoading := false, error := some m } := by
      simp only [handleGenerateNewScene, hu, hm]
    rw [hg]
    exact ⟨rfl, rfl⟩
  · intro hu htc
    obtain ⟨m, hm, _⟩ := addTextToImage_fails
      { prompt := s.textContent
        image := getBase64FromDataUrl u
        language := s.textLanguage } (.ok ⟨[]⟩) hfail
    have hg : handleApplyText s (.ok ⟨[]⟩) =
        { s with isLoading := false, error := some m } := by
      simp only [handleApplyText, hu]
      rw [if_neg htc]
      simp only [hm]
    rw [hg]
    exact ⟨rfl, rfl⟩

/-- Witness for C8: a zero-image response to regenerateScene in a
concrete editing state sets an error and keeps the image. -/
theorem empty_response_error_else_first_image_witness :
    (handleGenerateNewScene editState (.ok ⟨[]⟩)).error.isSome = true ∧
    (handleGenerateNewScene editState (.ok ⟨[]⟩)).imageUrl = editState.imageUrl :=
  (empty_response_error_else_first_image (optionsOf initState)
    ⟨"p", "i", "m"⟩ ⟨"p", "i", .r1x1⟩ ⟨"p", "i", "English"⟩ ⟨"QUJD"⟩ [] editState
    "data:image/jpeg;base64,QUJD" sampleMask).2.2.2.2.1 rfl

end InfluencerApp
